import Mathlib

/-!
Verification of the Settings Store (JSON-file-backed configuration) of the
AnkiAddonBuildset repository, together with the local HTTP control server's
POST handler.  The definitions below are a shallow embedding of
`src/music_player_anki/core/config.py`, `src/spotify_anki/config.py`,
`src/music_player_anki/gui/settings_dialog.py` (`_add_custom_url`) and
`src/spotify_anki/http_server.py` (`SpotifyServerHandler.do_POST`).

Python dictionaries are modelled as insertion-ordered association lists of
`String × JVal`; `{**d1, **d2}` is `mergeD`, `d[k] = v` is `setD`,
`d.get k fb` is `lookupD` with a fallback.  File I/O is modelled by an
explicit `FileState` (missing / unreadable-or-invalid / parsed object) and a
`WriteOutcome` chosen by the environment.  Raising an exception past a
function's boundary is modelled by `Except`; a function whose Lean embedding
is total and returns a plain value is one that never raises.
-/

/-- JSON-compatible values as they occur in the add-ons' configuration:
strings, integers, booleans, `None`, and the `custom_urls` list of
`{name, url}` records (`config.py` line 66). -/
inductive JVal where
  | null : JVal
  | bool : Bool → JVal
  | num : Int → JVal
  | str : String → JVal
  | urlList : List (String × String) → JVal
deriving DecidableEq, Repr

/-- A Python `dict` with string keys: an insertion-ordered association list.
A well-formed Python dict never has a duplicated key. -/
abbrev Dict := List (String × JVal)

/-- `d.get(k)` / `d[k]` on a Python dict: the first binding of `k`. -/
def lookupD {α : Type} : List (String × α) → String → Option α
  | [], _ => none
  | (k', v) :: rest, k => if k' = k then some v else lookupD rest k

/-- `d[k] = v` on a Python dict: update the existing binding in place,
else append the new binding at the end (insertion order). -/
def setD {α : Type} : List (String × α) → String → α → List (String × α)
  | [], k, v => [(k, v)]
  | (k', v') :: rest, k, v =>
      if k' = k then (k', v) :: rest else (k', v') :: setD rest k v

/-- `{**d1, **d2}` on Python dicts (`config.py` line 135): the keys of `d1`
in order, each bound to `d2`'s value when `d2` has the key, followed by the
keys of `d2` that are not in `d1`, in order. -/
def mergeD {α : Type} (d1 d2 : List (String × α)) : List (String × α) :=
  d1.map (fun kv => (kv.1, (lookupD d2 kv.1).getD kv.2))
    ++ d2.filter (fun kv => (lookupD d1 kv.1).isNone)

namespace Config

/-- `Config.DEFAULTS` of `src/music_player_anki/core/config.py`, lines 56-67. -/
def DEFAULTS : Dict :=
  [ ("shortcut_play_pause", JVal.str "Ctrl+Shift+R"),
    ("shortcut_next", JVal.str "Ctrl+Shift+Right"),
    ("shortcut_previous", JVal.str "Ctrl+Shift+Left"),
    ("shortcut_toggle", JVal.str "Ctrl+Shift+M"),
    ("shortcut_volume_up", JVal.str "Ctrl+Shift+Up"),
    ("shortcut_volume_down", JVal.str "Ctrl+Shift+Down"),
    ("default_service", JVal.str "youtube_music"),
    ("widget_width", JVal.num 700),
    ("widget_height", JVal.num 550),
    ("custom_urls", JVal.urlList []) ]

/-- `Config.DEFAULTS` of `src/spotify_anki/config.py`, lines 15-22. -/
def SPOTIFY_DEFAULTS : Dict :=
  [ ("shortcut_play_pause", JVal.str "Space"),
    ("shortcut_next", JVal.str "Shift+Right"),
    ("shortcut_previous", JVal.str "Shift+Left"),
    ("default_service", JVal.str "spotify"),
    ("widget_width", JVal.num 450),
    ("widget_height", JVal.num 600) ]

/-- The state of the configuration file as `Config.load` finds it.
`invalid` covers every way the `try` block of `load` can fail once the file
exists: an unreadable file, JSON that does not parse, and a top-level JSON
value that is not an object (so that `{**DEFAULTS, **settings}` raises);
all of these are caught by the `except Exception` branch. -/
inductive FileState where
  | missing : FileState
  | invalid : FileState
  | content : Dict → FileState
deriving DecidableEq, Repr

/-- The environment's verdict on one attempt to write the file: `ok` when
`open`/`json.dump` succeed, `error` for any I/O or serialization failure. -/
inductive WriteOutcome where
  | ok : WriteOutcome
  | error : WriteOutcome
deriving DecidableEq, Repr

/-- `Config.load` (`config.py` lines 106-139), parameterized by the variant's
`DEFAULTS` table.  A parsed object is merged over the defaults with
`{**DEFAULTS, **settings}`; a missing, unreadable or non-JSON file yields
`DEFAULTS.copy()`.  The function is total: `load` never raises. -/
def load (defaults : Dict) (fs : FileState) : Dict :=
  match fs with
  | FileState.content d => mergeD defaults d
  | FileState.missing => defaults
  | FileState.invalid => defaults

/-- `Config.save` (`config.py` lines 141-167): writes the whole in-memory
record as JSON, returning `true` and the new file state on success, and
`false` (the `except` branch) leaving the old file state on failure.  The
function is total: `save` never raises. -/
def save (settings : Dict) (fs : FileState) (w : WriteOutcome) :
    Bool × FileState :=
  match w with
  | WriteOutcome.ok => (true, FileState.content settings)
  | WriteOutcome.error => (false, fs)

/-- `Config.get` (`config.py` lines 169-189): `self.settings.get(key, default)`;
the Python `default` parameter defaults to `None`, modelled by the caller
passing `JVal.null`. -/
def get (settings : Dict) (key : String) (fallback : JVal) : JVal :=
  (lookupD settings key).getD fallback

/-- `Config.set` (`config.py` lines 191-212): `self.settings[key] = value`. -/
def set (settings : Dict) (key : String) (value : JVal) : Dict :=
  setD settings key value

/-- `Config.reset_to_defaults` (`config.py` lines 214-235), parameterized by
the variant's `DEFAULTS` table: `self.settings = self.DEFAULTS.copy()`
followed by `self.save()`.  The first component is the Python return value
of the method: the body has no `return` statement, so the method returns
`None` and the boolean result of the inner `save` is discarded. -/
def reset_to_defaults (defaults : Dict) (fs : FileState) (w : WriteOutcome) :
    JVal × Dict × FileState :=
  let settings := defaults
  (JVal.null, settings, (save settings fs w).2)

/-- The filesystem's verdict on `addon_dir.mkdir(exist_ok=True)`: creation
succeeded, the directory already existed (no error, because of
`exist_ok=True`), or creation failed (e.g. `PermissionError` when the parent
directory is unwritable). -/
inductive MkdirOutcome where
  | created : MkdirOutcome
  | alreadyExists : MkdirOutcome
  | permissionError : MkdirOutcome
deriving DecidableEq, Repr

/-- `Config._get_config_path` (`config.py` lines 83-104).  When the host main
window `mw` is available, the add-on directory is created with
`mkdir(exist_ok=True)`; that call is not wrapped in any `try`, so a creation
failure propagates out of the method, modelled by `Except.error`.  When `mw`
is unavailable, the relative fallback path is returned with no filesystem
access. -/
def getConfigPath (mwAvailable : Bool) (addonFolder : String)
    (mk : MkdirOutcome) : Except String String :=
  if mwAvailable then
    match mk with
    | MkdirOutcome.permissionError =>
        Except.error "PermissionError: cannot create addon directory"
    | _ => Except.ok (addonFolder ++ "/music_player_anki/config.json")
  else
    Except.ok "config.json"

end Config

/-!
A second, finer-grained model that tracks Python object identity for the one
mutable value stored inside `DEFAULTS`: the `custom_urls` list
(`config.py` line 66).  `dict.copy()` and `{**a, **b}` copy *bindings*, not
the list objects the bindings point to, so a binding holds a reference into
a heap of list objects.  This model is needed to settle whether the Defaults
Table can be mutated at runtime.
-/

/-- A `{name, url}` record of the `custom_urls` list. -/
abbrev UrlEntry := String × String

/-- A value stored in a dict binding in the identity-tracking model: scalars
are immutable and held directly, a Python list is held by reference into the
heap of list objects. -/
inductive HVal where
  | str : String → HVal
  | num : Int → HVal
  | ref : Nat → HVal
deriving DecidableEq, Repr

namespace PyModel

/-- The heap of Python list objects, indexed by allocation order.  Cell `0`
is the `[]` literal evaluated once in the `Config` class body and stored in
`DEFAULTS` under `'custom_urls'`. -/
abbrev Heap := List (List UrlEntry)

/-- The list object a reference designates. -/
def heapGet (h : Heap) (r : Nat) : List UrlEntry := h.getD r []

/-- `lst.append(e)` on the list object at `r`. -/
def heapAppend (h : Heap) (r : Nat) (e : UrlEntry) : Heap :=
  h.set r (heapGet h r ++ [e])

/-- The interpreter state: the heap of list objects and the in-memory
`self.settings` dict.  The configuration file is not part of this model
(writing it never touches any in-memory object). -/
structure PyState where
  heap : Heap
  settings : List (String × HVal)
deriving DecidableEq, Repr

/-- The bindings of `Config.DEFAULTS` (`config.py` lines 56-67) in the
identity-tracking model: `'custom_urls'` is bound to a reference to heap
cell `0`, the single `[]` object created when the class body ran. -/
def DEFAULTS_BINDINGS : List (String × HVal) :=
  [ ("shortcut_play_pause", HVal.str "Ctrl+Shift+R"),
    ("shortcut_next", HVal.str "Ctrl+Shift+Right"),
    ("shortcut_previous", HVal.str "Ctrl+Shift+Left"),
    ("shortcut_toggle", HVal.str "Ctrl+Shift+M"),
    ("shortcut_volume_up", HVal.str "Ctrl+Shift+Up"),
    ("shortcut_volume_down", HVal.str "Ctrl+Shift+Down"),
    ("default_service", HVal.str "youtube_music"),
    ("widget_width", HVal.num 700),
    ("widget_height", HVal.num 550),
    ("custom_urls", HVal.ref 0) ]

/-- The state right after the `Config` class body has run: the heap holds
only the `[]` object of `DEFAULTS['custom_urls']`, and no settings are
loaded yet. -/
def initState : PyState := { heap := [[]], settings := [] }

/-- `Config.load` (`config.py` line 139) when the file is missing or
unreadable: `self.settings = self.DEFAULTS.copy()`.  A `dict.copy()` is
shallow — the bindings are copied, so `settings['custom_urls']` is the very
reference stored in `DEFAULTS`. -/
def loadMissing (st : PyState) : PyState :=
  { st with settings := DEFAULTS_BINDINGS }

/-- The list object currently stored in `DEFAULTS` under `'custom_urls'`:
heap cell `0`. -/
def defaultsCustomUrls (st : PyState) : List UrlEntry := heapGet st.heap 0

/-- The validation `url.startswith(('http://', 'https://'))` of
`_add_custom_url` (`settings_dialog.py` line 572), stated on the string's
character list. -/
def startsWithHttp (url : String) : Bool :=
  "http://".toList.isPrefixOf url.toList
    || "https://".toList.isPrefixOf url.toList

/-- `_add_custom_url` of `src/music_player_anki/gui/settings_dialog.py`
(lines 552-593), with the two `QInputDialog` answers as arguments: after the
emptiness and `http(s)://` checks, it runs
`custom_urls = config.get('custom_urls', [])`, `custom_urls.append(...)`,
`config.set('custom_urls', custom_urls)`, `config.save()`.  When the key is
present, `get` returns the stored reference and `append` mutates the list
object it designates; when the key is absent, the `[]` fallback is a fresh
list object, modelled by allocating a new heap cell.  The trailing
`config.save()` only writes the file and does not change this state. -/
def addCustomUrl (st : PyState) (name url : String) : PyState :=
  if name = "" ∨ url = "" then st
  else if ¬ startsWithHttp url then st
  else
    match lookupD st.settings "custom_urls" with
    | some (HVal.ref r) =>
        { heap := heapAppend st.heap r (name, url),
          settings := setD st.settings "custom_urls" (HVal.ref r) }
    | _ =>
        { heap := st.heap ++ [[(name, url)]],
          settings := setD st.settings "custom_urls" (HVal.ref st.heap.length) }

end PyModel

/-!
The local HTTP control server's POST handler,
`src/spotify_anki/http_server.py`, `SpotifyServerHandler.do_POST`
(lines 44-77).
-/

namespace HttpServer

/-- The five playback commands a POST can carry. -/
inductive Command where
  | play : Command
  | pause : Command
  | toggle : Command
  | next : Command
  | previous : Command
deriving DecidableEq, Repr

/-- The `if`/`elif` chain of `do_POST` on the request's path component
(query string already stripped by `urlparse`). -/
def pathCommand (path : String) : Option Command :=
  if path = "/play" then some Command.play
  else if path = "/pause" then some Command.pause
  else if path = "/toggle" then some Command.toggle
  else if path = "/next" then some Command.next
  else if path = "/previous" then some Command.previous
  else none

/-- `self.controller.play() if self.controller else False` and its four
siblings: the controller, when set, answers each command with a boolean. -/
def controllerResult (controller : Option (Command → Bool)) (c : Command) :
    Bool :=
  match controller with
  | some ctrl => ctrl c
  | none => false

/-- The success message of each command's response. -/
def successMessage : Command → String
  | Command.play => "Playing"
  | Command.pause => "Paused"
  | Command.toggle => "Toggled"
  | Command.next => "Next track"
  | Command.previous => "Previous track"

/-- The failure message of each command's response. -/
def failureMessage : Command → String
  | Command.play => "Failed to play"
  | Command.pause => "Failed to pause"
  | Command.toggle => "Failed to toggle"
  | Command.next => "Failed to skip"
  | Command.previous => "Failed to go back"

/-- `do_POST` (`http_server.py` lines 44-77): the JSON object serialized
into the 200 response.  The response dict starts as
`{'success': False, 'message': 'Unknown command'}` and is replaced when the
path matches one of the five command paths. -/
def do_POST (controller : Option (Command → Bool)) (path : String) : Dict :=
  match pathCommand path with
  | some c =>
      let result := controllerResult controller c
      [ ("success", JVal.bool result),
        ("message",
          JVal.str (if result then successMessage c else failureMessage c)) ]
  | none =>
      [ ("success", JVal.bool false), ("message", JVal.str "Unknown command") ]

end HttpServer

/-!
Lemmas about the dict model, shared by the claim theorems below.
-/

theorem lookupD_append {α : Type} (xs ys : List (String × α)) (k : String) :
    lookupD (xs ++ ys) k = (lookupD xs k).or (lookupD ys k) := by
  induction xs with
  | nil => simp [lookupD]
  | cons hd tl ih =>
      obtain ⟨k', v⟩ := hd
      by_cases h : k' = k <;> simp [lookupD, h, ih]

theorem lookupD_setD_self {α : Type} (d : List (String × α)) (k : String)
    (v : α) : lookupD (setD d k v) k = some v := by
  induction d with
  | nil => simp [setD, lookupD]
  | cons hd tl ih =>
      obtain ⟨k', v'⟩ := hd
      by_cases h : k' = k <;> simp [setD, lookupD, h, ih]

theorem lookupD_setD_ne {α : Type} (d : List (String × α)) (k k' : String)
    (v : α) (h : k' ≠ k) : lookupD (setD d k v) k' = lookupD d k' := by
  induction d with
  | nil => simp [setD, lookupD, Ne.symm h]
  | cons hd tl ih =>
      obtain ⟨k'', v''⟩ := hd
      by_cases h2 : k'' = k <;> by_cases h3 : k'' = k' <;>
        simp_all [setD, lookupD]

theorem lookupD_isSome_of_mem {α : Type} (d : List (String × α))
    (k : String) (v : α) (h : (k, v) ∈ d) : (lookupD d k).isSome := by
  induction d with
  | nil => simp at h
  | cons hd tl ih =>
      obtain ⟨k', v'⟩ := hd
      rcases List.mem_cons.mp h with h1 | h1
      · simp [lookupD, (Prod.mk.injEq .. ▸ h1).1.symm]
      · by_cases h2 : k' = k <;> simp [lookupD, h2, ih h1]

theorem lookupD_eq_of_mem {α : Type} (d : List (String × α)) (k : String)
    (v : α) (hd : (d.map Prod.fst).Nodup) (h : (k, v) ∈ d) :
    lookupD d k = some v := by
  induction d with
  | nil => simp at h
  | cons hd0 tl ih =>
      obtain ⟨k', v'⟩ := hd0
      simp only [List.map_cons, List.nodup_cons] at hd
      rcases List.mem_cons.mp h with h1 | h1
      · obtain ⟨hk, hv⟩ := Prod.mk.injEq .. ▸ h1
        simp [lookupD, hk.symm, hv]
      · have hk : k' ≠ k := by
          intro he
          exact hd.1 (he ▸ (List.mem_map.mpr ⟨(k, v), h1, rfl⟩))
        simp [lookupD, hk, ih hd.2 h1]

theorem lookupD_mergeD_map {α : Type} (d1 d2 : List (String × α))
    (k : String) :
    lookupD (d1.map (fun kv => (kv.1, (lookupD d2 kv.1).getD kv.2))) k
      = (lookupD d1 k).map (fun v => (lookupD d2 k).getD v) := by
  induction d1 with
  | nil => simp [lookupD]
  | cons hd tl ih =>
      obtain ⟨k', v⟩ := hd
      by_cases h : k' = k <;> simp [lookupD, h, ih]

theorem lookupD_mergeD_filter {α : Type} (d1 d2 : List (String × α))
    (k : String) :
    lookupD (d2.filter (fun kv => (lookupD d1 kv.1).isNone)) k
      = if (lookupD d1 k).isNone then lookupD d2 k else none := by
  induction d2 with
  | nil => simp [lookupD]
  | cons hd tl ih =>
      obtain ⟨k', v⟩ := hd
      by_cases h : k' = k
      · subst h
        by_cases hp : (lookupD d1 k').isNone <;>
          simp [List.filter_cons, lookupD, hp, ih]
      · by_cases hp : (lookupD d1 k').isNone <;>
          simp [List.filter_cons, lookupD, hp, h, ih]

/-- The one characterizing equation of `{**d1, **d2}`: a key's value is
`d2`'s when `d2` has the key, else `d1`'s. -/
theorem lookupD_mergeD {α : Type} (d1 d2 : List (String × α)) (k : String) :
    lookupD (mergeD d1 d2) k = (lookupD d2 k).or (lookupD d1 k) := by
  unfold mergeD
  rw [lookupD_append, lookupD_mergeD_map, lookupD_mergeD_filter]
  cases h1 : lookupD d1 k <;> cases h2 : lookupD d2 k <;> simp [h1, h2]

theorem mergeD_map_eq_self {α : Type} (d d' : List (String × α))
    (h : ∀ kv ∈ d, lookupD d' kv.1 = some kv.2) :
    d.map (fun kv => (kv.1, (lookupD d' kv.1).getD kv.2)) = d := by
  induction d with
  | nil => rfl
  | cons hd tl ih =>
      obtain ⟨k, v⟩ := hd
      have h0 := h (k, v) (List.mem_cons_self ..)
      simp only [List.map_cons, h0]
      exact congrArg _ (ih fun kv hkv => h kv (List.mem_cons_of_mem _ hkv))

/-- `{**d, **d} = d` for a dict with no duplicated key. -/
theorem mergeD_self {α : Type} (d : List (String × α))
    (hd : (d.map Prod.fst).Nodup) : mergeD d d = d := by
  unfold mergeD
  have h1 : d.map (fun kv => (kv.1, (lookupD d kv.1).getD kv.2)) = d :=
    mergeD_map_eq_self d d fun kv hkv =>
      lookupD_eq_of_mem d kv.1 kv.2 hd hkv
  have h2 : d.filter (fun kv => (lookupD d kv.1).isNone) = [] :=
    List.filter_eq_nil_iff.mpr fun kv hkv => by
      have hs := lookupD_isSome_of_mem d kv.1 kv.2 hkv
      cases hl : lookupD d kv.1 with
      | none => rw [hl] at hs; simp at hs
      | some w => simp [hl]
  rw [h1, h2, List.append_nil]

/-- Merging over `d1` is absorptive: `{**d1, **{**d1, **d2}} = {**d1, **d2}`
when `d1` has no duplicated key. -/
theorem mergeD_absorb {α : Type} (d1 d2 : List (String × α))
    (hd : (d1.map Prod.fst).Nodup) :
    mergeD d1 (mergeD d1 d2) = mergeD d1 d2 := by
  have h1 : d1.map (fun kv => (kv.1, (lookupD (mergeD d1 d2) kv.1).getD kv.2))
      = d1.map (fun kv => (kv.1, (lookupD d2 kv.1).getD kv.2)) := by
    refine List.map_congr_left fun kv hkv => ?_
    rw [lookupD_mergeD, lookupD_eq_of_mem d1 kv.1 kv.2 hd hkv]
    cases h2 : lookupD d2 kv.1 <;> simp [h2]
  have h2 : (mergeD d1 d2).filter (fun kv => (lookupD d1 kv.1).isNone)
      = d2.filter (fun kv => (lookupD d1 kv.1).isNone) := by
    unfold mergeD
    rw [List.filter_append]
    have h3 : (d1.map (fun kv => (kv.1, (lookupD d2 kv.1).getD kv.2))).filter
        (fun kv => (lookupD d1 kv.1).isNone) = [] :=
      List.filter_eq_nil_iff.mpr fun kv hkv => by
        obtain ⟨kv0, hkv0, hkv1⟩ := List.mem_map.mp hkv
        have hs : (lookupD d1 kv.1).isSome := by
          rw [← hkv1]
          exact lookupD_isSome_of_mem d1 kv0.1 kv0.2 hkv0
        cases hl : lookupD d1 kv.1 with
        | none => rw [hl] at hs; simp at hs
        | some w => simp [hl]
    rw [h3, List.nil_append, List.filter_filter]
    exact List.filter_congr fun kv _ => by cases lookupD d1 kv.1 <;> simp
  have hgoal : mergeD d1 (mergeD d1 d2)
      = d1.map (fun kv => (kv.1, (lookupD (mergeD d1 d2) kv.1).getD kv.2))
        ++ (mergeD d1 d2).filter (fun kv => (lookupD d1 kv.1).isNone) := rfl
  rw [hgoal, h1, h2]
  rfl

/-!
The claims.
-/

/-- C1: for every JSON object parsed from the file, `load` overlays the
file's content onto the Defaults Table (here: any defaults dict, in
particular `Config.DEFAULTS` and `Config.SPOTIFY_DEFAULTS`): a key present
in the file takes the file's whole value (one level deep, no deep merge), a
key present only in the defaults keeps its default, a key present only in
the file is preserved, and consequently every key of the defaults is present
in the result. -/
theorem load_overlays_file_onto_defaults (defaults d : Dict) (k : String) :
    lookupD (Config.load defaults (Config.FileState.content d)) k
        = (lookupD d k).or (lookupD defaults k) ∧
      ((lookupD defaults k).isSome →
        (lookupD (Config.load defaults (Config.FileState.content d)) k).isSome) := by
  refine ⟨lookupD_mergeD defaults d k, fun h => ?_⟩
  have := lookupD_mergeD defaults d k
  show (lookupD (mergeD defaults d) k).isSome
  rw [this]
  cases h2 : lookupD d k <;> simp_all

/-- C2: `load` is a total function of the file state — it never raises — and
on a missing file, or on a file whose content is unreadable or not valid
JSON, it returns a record equal to the Defaults Table (the Python
`DEFAULTS.copy()`; distinctness of the copied top-level dict object is an
identity fact the pure model leaves implicit). -/
theorem load_failure_returns_defaults (defaults : Dict) :
    Config.load defaults Config.FileState.missing = defaults ∧
    Config.load defaults Config.FileState.invalid = defaults :=
  ⟨rfl, rfl⟩

/-- C3: the claim that the Defaults Table is never mutated is violated by
the code.  `DEFAULTS.copy()` is shallow, so after `load` on a missing file
the settings' `'custom_urls'` binding aliases the list object inside
`DEFAULTS`; the settings dialog's `_add_custom_url` appends to the list
returned by `config.get('custom_urls', [])`, which mutates
`DEFAULTS['custom_urls']` from `[]` to a one-entry list. -/
theorem defaults_table_mutated_by_add_custom_url :
    PyModel.defaultsCustomUrls PyModel.initState = [] ∧
    PyModel.defaultsCustomUrls
        (PyModel.addCustomUrl (PyModel.loadMissing PyModel.initState)
          "Soundcloud" "https://soundcloud.com")
      = [("Soundcloud", "https://soundcloud.com")] := by
  exact ⟨rfl, by decide⟩

/-- C4 counterexample: with the host main window available and the parent
directory unwritable, `mkdir(exist_ok=True)` fails and
`_get_config_path` propagates the exception — the resolution step itself
raises, contrary to the claim. -/
theorem resolve_path_raises_on_mkdir_failure :
    Config.getConfigPath true "/addons" Config.MkdirOutcome.permissionError
      = Except.error "PermissionError: cannot create addon directory" := rfl

/-- C4 (amended): when the host main window is unavailable, resolution
returns the relative fallback path and never raises; when the host is
available, resolution raises exactly when directory creation fails (a
directory that already exists is no failure, because of `exist_ok=True`),
and otherwise returns the path under the add-on data directory. -/
theorem getConfigPath_error_iff_mkdir_fails (folder : String)
    (mk : Config.MkdirOutcome) :
    Config.getConfigPath false folder mk = Except.ok "config.json" ∧
    (Config.getConfigPath true folder mk
        = Except.error "PermissionError: cannot create addon directory"
      ↔ mk = Config.MkdirOutcome.permissionError) ∧
    (mk ≠ Config.MkdirOutcome.permissionError →
      Config.getConfigPath true folder mk
        = Except.ok (folder ++ "/music_player_anki/config.json")) := by
  refine ⟨rfl, ?_, ?_⟩ <;> cases mk <;> simp [Config.getConfigPath]

/-- C5: for every record `R` produced by `load` (from any file state) and a
defaults table with no duplicated key, a succeeding `save` of `R` followed
by `load` yields `R` again, as the file now holds every key of `R` and the
merge over the defaults is absorptive. -/
theorem save_then_load_roundtrip (defaults : Dict)
    (fs0 fs1 : Config.FileState)
    (hd : (defaults.map Prod.fst).Nodup) :
    Config.load defaults
        (Config.save (Config.load defaults fs0) fs1 Config.WriteOutcome.ok).2
      = Config.load defaults fs0 := by
  cases fs0 with
  | content d => exact mergeD_absorb defaults d hd
  | missing => exact mergeD_self defaults hd
  | invalid => exact mergeD_self defaults hd

/-- C5 witness: the round-trip at the music-player Defaults Table and a file
that customizes `default_service`. -/
theorem save_then_load_roundtrip_witness :
    (Config.DEFAULTS.map Prod.fst).Nodup ∧
    Config.load Config.DEFAULTS
        (Config.save
          (Config.load Config.DEFAULTS
            (Config.FileState.content [("default_service", JVal.str "youtube")]))
          Config.FileState.missing Config.WriteOutcome.ok).2
      = Config.load Config.DEFAULTS
          (Config.FileState.content [("default_service", JVal.str "youtube")]) :=
  ⟨by decide,
    save_then_load_roundtrip Config.DEFAULTS
      (Config.FileState.content [("default_service", JVal.str "youtube")])
      Config.FileState.missing (by decide)⟩

/-- C6: `save` is a total function of the in-memory record, the prior file
state and the write outcome — it never raises — returning `true` exactly
when the write succeeded (in which case the file now holds the serialized
record) and `false` on any I/O or serialization failure. -/
theorem save_reports_success_as_bool (settings : Dict)
    (fs : Config.FileState) (w : Config.WriteOutcome) :
    ((Config.save settings fs w).1 = true ↔ w = Config.WriteOutcome.ok) ∧
    (Config.save settings fs Config.WriteOutcome.ok).2
        = Config.FileState.content settings ∧
    (Config.save settings fs Config.WriteOutcome.error).1 = false := by
  refine ⟨?_, rfl, rfl⟩
  cases w <;> simp [Config.save]

/-- C7: after `reset_to_defaults` whose inner `save` succeeds, `get` returns
the default value of every key of the Defaults Table, and a fresh `load`
from the written file returns exactly the defaults. -/
theorem reset_then_get_and_load_defaults (defaults : Dict)
    (fs : Config.FileState) (k : String) (v fallback : JVal)
    (hd : (defaults.map Prod.fst).Nodup)
    (hk : lookupD defaults k = some v) :
    Config.get
        (Config.reset_to_defaults defaults fs Config.WriteOutcome.ok).2.1
        k fallback = v ∧
    Config.load defaults
        (Config.reset_to_defaults defaults fs Config.WriteOutcome.ok).2.2
      = defaults := by
  refine ⟨?_, mergeD_self defaults hd⟩
  simp [Config.get, Config.reset_to_defaults, Config.save, hk]

/-- C7 witness: resetting over a customized file restores and persists the
default `default_service`. -/
theorem reset_then_get_and_load_defaults_witness :
    ((Config.DEFAULTS.map Prod.fst).Nodup ∧
      lookupD Config.DEFAULTS "default_service"
        = some (JVal.str "youtube_music")) ∧
    (Config.get
        (Config.reset_to_defaults Config.DEFAULTS
          (Config.FileState.content [("default_service", JVal.str "youtube")])
          Config.WriteOutcome.ok).2.1
        "default_service" JVal.null = JVal.str "youtube_music" ∧
      Config.load Config.DEFAULTS
          (Config.reset_to_defaults Config.DEFAULTS
            (Config.FileState.content [("default_service", JVal.str "youtube")])
            Config.WriteOutcome.ok).2.2
        = Config.DEFAULTS) :=
  ⟨⟨by decide, by decide⟩,
    reset_then_get_and_load_defaults Config.DEFAULTS
      (Config.FileState.content [("default_service", JVal.str "youtube")])
      "default_service" (JVal.str "youtube_music") JVal.null
      (by decide) (by decide)⟩

/-- C8: `set k v` followed by `get k` (no save in between) returns `v`, and
for every other key `k'` the value observed by `get k'` (under any
fallback) is unchanged by the `set`. -/
theorem set_then_get_frame (settings : Dict) (k k' : String)
    (v fallback fallback' : JVal) (h : k' ≠ k) :
    Config.get (Config.set settings k v) k fallback = v ∧
    Config.get (Config.set settings k v) k' fallback'
      = Config.get settings k' fallback' := by
  constructor
  · simp [Config.get, Config.set, lookupD_setD_self]
  · simp [Config.get, Config.set, lookupD_setD_ne settings k k' v h]

/-- C8 witness: setting `default_service` on an empty record leaves
`widget_width` unobserved-changed. -/
theorem set_then_get_frame_witness :
    ("widget_width" : String) ≠ "default_service" ∧
    (Config.get (Config.set [] "default_service" (JVal.str "youtube"))
        "default_service" JVal.null = JVal.str "youtube" ∧
      Config.get (Config.set [] "default_service" (JVal.str "youtube"))
          "widget_width" JVal.null
        = Config.get [] "widget_width" JVal.null) :=
  ⟨by decide,
    set_then_get_frame [] "default_service" "widget_width"
      (JVal.str "youtube") JVal.null JVal.null (by decide)⟩

/-- C9: a POST to one of the five command paths yields a JSON object whose
keys are exactly `success` and `message`, with `success` a boolean equal to
the controller's result for that command (`False` when no controller is
configured) and `message` a string. -/
theorem do_POST_success_reflects_controller
    (controller : Option (HttpServer.Command → Bool)) (path : String)
    (c : HttpServer.Command) (h : HttpServer.pathCommand path = some c) :
    lookupD (HttpServer.do_POST controller path) "success"
        = some (JVal.bool (HttpServer.controllerResult controller c)) ∧
    (∃ s, lookupD (HttpServer.do_POST controller path) "message"
        = some (JVal.str s)) ∧
    (HttpServer.do_POST controller path).map Prod.fst
        = ["success", "message"] ∧
    (controller = none →
      HttpServer.controllerResult controller c = false) := by
  have hd : HttpServer.do_POST controller path
      = [ ("success", JVal.bool (HttpServer.controllerResult controller c)),
          ("message",
            JVal.str (if HttpServer.controllerResult controller c
              then HttpServer.successMessage c
              else HttpServer.failureMessage c)) ] := by
    unfold HttpServer.do_POST
    rw [h]
  refine ⟨?_, ?_, ?_, fun hc => ?_⟩
  · rw [hd]; simp [lookupD]
  · exact ⟨if HttpServer.controllerResult controller c
        then HttpServer.successMessage c else HttpServer.failureMessage c,
      by rw [hd]; simp [lookupD]⟩
  · rw [hd]; simp
  · simp [HttpServer.controllerResult, hc]

/-- C9 witness: a POST to `/play` with no controller configured answers
`success = false`. -/
theorem do_POST_success_reflects_controller_witness :
    HttpServer.pathCommand "/play" = some HttpServer.Command.play ∧
    (lookupD (HttpServer.do_POST none "/play") "success"
        = some (JVal.bool (HttpServer.controllerResult none
            HttpServer.Command.play)) ∧
      (∃ s, lookupD (HttpServer.do_POST none "/play") "message"
          = some (JVal.str s)) ∧
      (HttpServer.do_POST none "/play").map Prod.fst
          = ["success", "message"] ∧
      ((none : Option (HttpServer.Command → Bool)) = none →
        HttpServer.controllerResult none HttpServer.Command.play = false)) :=
  ⟨by decide,
    do_POST_success_reflects_controller none "/play"
      HttpServer.Command.play (by decide)⟩

/-- C10: `reset_to_defaults` returns Python `None` whatever the outcome of
the inner `save` — the save's boolean is discarded, so a disk-write failure
during a reset is invisible in the return value — and in every case the
in-memory record is replaced by a copy of the Defaults Table. -/
theorem reset_returns_none_regardless_of_save (defaults : Dict)
    (fs : Config.FileState) (w : Config.WriteOutcome) :
    (Config.reset_to_defaults defaults fs w).1 = JVal.null ∧
    (Config.reset_to_defaults defaults fs w).2.1 = defaults ∧
    (Config.reset_to_defaults defaults fs Config.WriteOutcome.ok).1
      = (Config.reset_to_defaults defaults fs Config.WriteOutcome.error).1 :=
  ⟨rfl, rfl, rfl⟩
